import Mathlib

/-!
# Verification of `playwright_plus` (browser_surf and the interception engine)

A shallow embedding of `src/playwright_plus/browser_surf.py` and of the
response-interception engine described by the specification, together with
theorems settling the frozen claims about the repository.

Python values that flow through the decorator machinery are modelled by
`PyVal`; Python exceptions are modelled with `Except`; the closed-over
(`nonlocal`) cells of the decorators are modelled by explicit state passed in
and returned.
-/

set_option autoImplicit false

/-- A Python value as seen by the decorator layer: a Playwright `Page` object
(identified by an id), `None`, a bool, a non-negative int, or a string. -/
inductive PyVal
  | pageV (id : Nat)
  | noneV
  | boolV (b : Bool)
  | intV (n : Nat)
  | strV (s : String)
deriving DecidableEq

/-- Python truthiness (`bool(v)`) for the modelled values. -/
def PyVal.truthy : PyVal → Bool
  | .pageV _ => true
  | .noneV => false
  | .boolV b => b
  | .intV n => n != 0
  | .strV s => !s.isEmpty

/-- `isinstance(v, Page)` for the modelled values. -/
def PyVal.isPage : PyVal → Bool
  | .pageV _ => true
  | _ => false

/-- Keyword arguments of a Python call: a finite map from names to values. -/
abbrev Kwargs := List (String × PyVal)

/-- `func_kwargs.get ("page")`: Python `dict.get` returns `None` when the key
is absent. -/
def kwGet (func_kwargs : Kwargs) (key : String) : PyVal :=
  match func_kwargs.lookup key with
  | some v => v
  | none => PyVal.noneV

/-- Embeds `_get_page_arg` (browser_surf.py lines 229-252): start from `None`;
if the kwargs dict is truthy take `kwargs.get ("page")`; if the value so far is
falsy and there is a positional argument take the first one; finally require
`isinstance (page, Page)` or raise. -/
def _get_page_arg (func_args : List PyVal) (func_kwargs : Kwargs)
    (func_name : String) : Except String PyVal :=
  let page : PyVal := PyVal.noneV
  let page : PyVal :=
    if !func_kwargs.isEmpty then kwGet func_kwargs ("page") else page
  let page : PyVal :=
    if !page.truthy && !func_args.isEmpty then func_args.headD PyVal.noneV
    else page
  if page.isPage then Except.ok page
  else Except.error
    (("One of the decorator expects the function `") ++ func_name ++
      ("` to have a page as first arg or as kwarg."))

/-- An exception that can be raised while a route handler aborts or continues
a request: `asyncio.CancelledError`, or any other error. -/
inductive PwExn
  | cancelled
  | other (msg : String)
deriving DecidableEq

/-- The observable outcome of one run of the `_block_resources` route handler. -/
inductive RouteOutcome
  | abortCalled
  | continueCalled
  | cancelledCaught
deriving DecidableEq

/-- The default blocked resource types (browser_surf.py line 14). -/
def EXCLUDED_RESOURCES_TYPES : List String :=
  ["stylesheet", "image", "font", "svg"]

/-- Embeds the `_block_resources` route handler (browser_surf.py lines 33-59,
repeated verbatim at lines 128-137): abort when the request's resource type is
in `resources_to_block`, otherwise continue; a `CancelledError` raised by the
abort/continue call is caught and the handler returns normally, while any
other exception propagates.  `raised` models the exception (if any) thrown by
the underlying `route.abort()` / `route.continue_()` call. -/
def _block_resources (resources_to_block : List String) (resource_type : String)
    (raised : Option PwExn) : Except PwExn RouteOutcome :=
  let attempted : RouteOutcome :=
    if resource_type ∈ resources_to_block then RouteOutcome.abortCalled
    else RouteOutcome.continueCalled
  match raised with
  | none => Except.ok attempted
  | some PwExn.cancelled => Except.ok RouteOutcome.cancelledCaught
  | some (PwExn.other m) => Except.error (PwExn.other m)

/-- Embeds `create_block_resources` (browser_surf.py lines 24-59): it returns
the `_block_resources` handler closed over `resources_to_block`. -/
def create_block_resources (resources_to_block : List String) :
    String → Option PwExn → Except PwExn RouteOutcome :=
  _block_resources resources_to_block

/-- Proxy information passed to the browser launch. -/
structure ProxyInfo where
  server : String
deriving DecidableEq

/-- Which browser engine was launched. -/
inductive BrowserKind
  | chromium
  | firefox
deriving DecidableEq

/-- The launched browser and its configuration. -/
structure Browser where
  kind : BrowserKind
  headless : Bool
  proxy : Option ProxyInfo
deriving DecidableEq

/-- A navigator object as page scripts see it. -/
structure Navigator where
  webdriver : Bool
deriving DecidableEq

/-- The init scripts browser_surf installs.  `maskWebdriver` is the script
added at browser_surf.py lines 107-114. -/
inductive InitScript
  | maskWebdriver
deriving DecidableEq

/-- The effect of an init script on the page's navigator object.  The
`maskWebdriver` script sets `navigator.webdriver = false` and installs a
getter for `navigator.webdriver` that returns `false`, so after it runs the
navigator reports `webdriver = false` whatever it reported before. -/
def InitScript.effect : InitScript → Navigator → Navigator
  | .maskWebdriver, _ => { webdriver := false }

/-- A cookie set on the browser context. -/
structure Cookie where
  name : String
  value : String
deriving DecidableEq

/-- A browser context with its recorded configuration. -/
structure BrowserContext where
  accept_downloads : Bool
  init_scripts : List InitScript
  cookies : List Cookie
deriving DecidableEq

/-- A page: `route_pattern`/`route_resources` record the routing rule
installed by `page.route` — the glob pattern and the resource types the
installed `_block_resources` handler is closed over (or `none` when no route
was installed). -/
structure PwPage where
  route_pattern : Option String
  route_resources : Option (List String)
deriving DecidableEq

/-- The Python `block_resources: bool | list` argument. -/
inductive BlockResources
  | boolBR (b : Bool)
  | listBR (l : List String)
deriving DecidableEq

/-- Python truthiness of `block_resources`: a bool is itself, a list is truthy
iff non-empty. -/
def BlockResources.truthy : BlockResources → Bool
  | .boolBR b => b
  | .listBR l => !l.isEmpty

/-- Python `block_resources == True`: true only for the bool `True`; a list
never compares equal to `True`. -/
def BlockResources.eqTrue : BlockResources → Bool
  | .boolBR b => b
  | .listBR _ => false

/-- The `resources_to_block` chosen at browser_surf.py lines 124-126:
`EXCLUDED_RESOURCES_TYPES if block_resources == True else block_resources`. -/
def resourcesToBlock (block_resources : BlockResources) : List String :=
  match block_resources with
  | .boolBR _ => EXCLUDED_RESOURCES_TYPES
  | .listBR l => l

/-- The `match browser_type` at browser_surf.py lines 97-101: only
`"chromium"` and `"firefox"` have cases; any other value leaves `browser`
unbound and the next use raises. -/
def launchBrowser (browser_type : String) (headless : Bool)
    (proxy_info : Option ProxyInfo) : Except String Browser :=
  if browser_type = ("chromium") then
    Except.ok { kind := BrowserKind.chromium, headless := headless, proxy := proxy_info }
  else if browser_type = ("firefox") then
    Except.ok { kind := BrowserKind.firefox, headless := headless, proxy := proxy_info }
  else Except.error ("UnboundLocalError: browser")

/-- Embeds `_instantiate_browser_context_page` (browser_surf.py lines 65-141):
launch the browser, create a context with `accept_downloads`, add the
webdriver-masking init script, add the cookies when the list is truthy, open a
page, and when `block_resources` is truthy install a `_block_resources` route
handler on the glob `**/*` closed over the chosen resource list. -/
def _instantiate_browser_context_page (proxy_info : Option ProxyInfo)
    (headless accept_downloads : Bool) (block_resources : BlockResources)
    (cookies : List Cookie) (browser_type : String) :
    Except String (Browser × BrowserContext × PwPage) :=
  match launchBrowser browser_type headless proxy_info with
  | Except.error e => Except.error e
  | Except.ok browser =>
    let context : BrowserContext :=
      { accept_downloads := accept_downloads
        init_scripts := [InitScript.maskWebdriver]
        cookies := if cookies.isEmpty then [] else cookies }
    let page : PwPage :=
      if block_resources.truthy then
        { route_pattern := some ("**/*")
          route_resources := some (resourcesToBlock block_resources) }
      else { route_pattern := none, route_resources := none }
    Except.ok (browser, context, page)

/-- Embeds `open_new_page` (browser_surf.py lines 144-178): it forwards its
arguments to `_instantiate_browser_context_page` with the default browser
type `"chromium"`. -/
def open_new_page (proxy_info : Option ProxyInfo)
    (headless accept_downloads : Bool) (block_resources : BlockResources)
    (cookies : List Cookie) : Except String (Browser × BrowserContext × PwPage) :=
  _instantiate_browser_context_page proxy_info headless accept_downloads
    block_resources cookies ("chromium")

/-- Whether `needle` is a prefix of `haystack`, on character lists. -/
def listIsPrefix : List Char → List Char → Bool
  | [], _ => true
  | _ :: _, [] => false
  | a :: as, b :: bs => a == b && listIsPrefix as bs

/-- Whether `needle` occurs as a contiguous infix of the character list. -/
def listHasInfix (needle : List Char) : List Char → Bool
  | [] => listIsPrefix needle []
  | c :: cs => listIsPrefix needle (c :: cs) || listHasInfix needle cs

/-- Substring containment: the Python test `pattern in url`. -/
def strContains (haystack pattern : String) : Bool :=
  listHasInfix pattern.data haystack.data

/-- Python `s.startswith(pre)` as a character-wise prefix test. -/
def strStartsWith (s pre : String) : Bool :=
  listIsPrefix pre.data s.data

/-- `min = int(wait_ms * 0.85 + 0.5)` at browser_surf.py line 281, for the
non-negative integers the decorator is used with (Python `int` truncates the
positive float towards zero, which is the floor computed here). -/
def jitterLo (wait_ms : Nat) : Nat := (wait_ms * 85 + 50) / 100

/-- `max = int(wait_ms * 1.15 + 0.5)` at browser_surf.py line 282. -/
def jitterHi (wait_ms : Nat) : Nat := (wait_ms * 115 + 50) / 100

/-- The `wait_ms` overwrite at browser_surf.py lines 276-277: when the kwargs
dict is truthy and holds a `"wait_ms"` key, its (integer) value replaces the
closed-over `wait_ms`; non-integer values for this key are outside the model. -/
def kwWaitMs (func_kwargs : Kwargs) (current : Nat) : Nat :=
  if func_kwargs.isEmpty then current
  else
    match func_kwargs.lookup ("wait_ms") with
    | some (PyVal.intV n) => n
    | _ => current

/-- One invocation of the wrapper built by `wait_after_execution`
(browser_surf.py lines 255-291).  `wait_ms` is the decorator's closed-over
(`nonlocal`) cell, returned updated; `pick lo hi` models `randint(lo, hi)`.
The result carries the wrapped function's output together with the duration
passed to `page.wait_for_timeout`. -/
def wait_after_execution_call {α : Type} (randomized : Bool)
    (pick : Nat → Nat → Nat) (func : List PyVal → Kwargs → α)
    (func_name : String) (wait_ms : Nat) (func_args : List PyVal)
    (func_kwargs : Kwargs) : Except String (α × Nat) × Nat :=
  match _get_page_arg func_args func_kwargs func_name with
  | Except.error e => (Except.error e, wait_ms)
  | Except.ok _ =>
    let output := func func_args func_kwargs
    let w := kwWaitMs func_kwargs wait_ms
    let waited := if randomized then pick (jitterLo w) (jitterHi w) else w
    (Except.ok (output, waited), waited)

/-- The closed-over `marker` cell of `check_for_loaded_marker`: `None`, still
a string, or already rebound to a Playwright `Locator` built from the given
selector. -/
inductive MarkerV
  | noneM
  | strM (s : String)
  | locM (selector : String)
deriving DecidableEq

/-- The selector construction at browser_surf.py lines 322-324: prefix the
marker string with a dot unless `marker_strict` is set or the string already
starts with one. -/
def markerSelector (marker_strict : Bool) (s : String) : String :=
  if !marker_strict && !(strStartsWith s (".")) then ("." ++ s) else s

/-- One invocation of the wrapper built by `check_for_loaded_marker`
(browser_surf.py lines 294-339).  `marker` is the decorator's closed-over
(`nonlocal`) cell, returned updated.  When the cell holds a string the wrapper
builds the selector, rebinds the cell to the locator, and waits for it
(`waitOk` models whether `marker.wait_for` succeeds or raises a timeout);
otherwise no selector is built and no wait happens.  On success the result
carries the wrapped function's output together with the selector waited on
this call, if any. -/
def check_for_loaded_marker_call {α : Type} (marker_strict : Bool)
    (waitOk : Bool) (func : List PyVal → Kwargs → α) (func_name : String)
    (marker : MarkerV) (func_args : List PyVal) (func_kwargs : Kwargs) :
    Except String (α × Option String) × MarkerV :=
  match _get_page_arg func_args func_kwargs func_name with
  | Except.error e => (Except.error e, marker)
  | Except.ok _ =>
    let output := func func_args func_kwargs
    match marker with
    | MarkerV.strM s =>
      let sel := markerSelector marker_strict s
      if waitOk then (Except.ok (output, some sel), MarkerV.locM sel)
      else (Except.error ("TimeoutError"), MarkerV.locM sel)
    | m => (Except.ok (output, none), m)

/-- A network response event: its URL and its body parsed as JSON — `none`
when the body is not valid JSON. -/
structure ResponseEvent where
  url : String
  jsonBody : Option String
deriving DecidableEq

/-- Modelled from the spec: the `web_intercept` module holding the Response
Matcher (`construct_handle_response` / `set_json_to_page` of the tests) is not
under src/.  Per the spec's Response Matcher and Capture Buffer contracts, the
handler tests whether the response URL contains the configured pattern
substring; on a match it writes the parsed JSON body into the Capture Buffer
with overwrite semantics, and a match whose body is not valid JSON is ignored
(the engine keeps waiting); on no match the buffer is left untouched. -/
def handle_response (pattern : String) (event : ResponseEvent)
    (buffer : Option String) : Option String :=
  if strContains event.url pattern then
    match event.jsonBody with
    | some j => some j
    | none => buffer
  else buffer

/-- Terminal outcome of the interception engine's poll loop.  `outOfFuel` is
the model's artefact for an under-provisioned fuel argument; the fuel bound in
the theorems rules it out. -/
inductive InterceptResult
  | matched
  | timedOut
  | exhausted
  | outOfFuel
deriving DecidableEq

/-- What the poll loop exits with: the terminal result, the total elapsed
wait, and how many refreshes were performed. -/
structure LoopOut where
  result : InterceptResult
  elapsed : Nat
  refreshes : Nat
deriving DecidableEq

/-- Modelled from the spec: the Interception Engine's poll loop (spec §4.3);
the `web_intercept` module implementing `intercept_json` is not under src/.
`buf t` is the Capture Buffer's content when the poll at total elapsed time
`t` reads it.  Each iteration, in the spec's order: a non-empty buffer is
MATCHED; else if the wait since the last refresh exceeds the per-attempt
slice and refreshes remain, REFRESHING — increment the refresh count and
reset the per-attempt clock; else if the total wait exceeds `timeout`,
TIMED_OUT; else if the refresh budget is consumed and the final attempt's
window is over, EXHAUSTED; otherwise sleep `pollMs` and poll again. -/
def interceptLoop (buf : Nat → Option String) (pollMs slice timeout maxRefresh : Nat) :
    Nat → Nat → Nat → Nat → LoopOut
  | 0, elapsed, _, refreshes => ⟨InterceptResult.outOfFuel, elapsed, refreshes⟩
  | fuel + 1, elapsed, attemptElapsed, refreshes =>
    match buf elapsed with
    | some _ => ⟨InterceptResult.matched, elapsed, refreshes⟩
    | none =>
      if slice < attemptElapsed ∧ refreshes < maxRefresh then
        interceptLoop buf pollMs slice timeout maxRefresh fuel elapsed 0 (refreshes + 1)
      else if timeout < elapsed then
        ⟨InterceptResult.timedOut, elapsed, refreshes⟩
      else if refreshes = maxRefresh ∧ slice < attemptElapsed then
        ⟨InterceptResult.exhausted, elapsed, refreshes⟩
      else
        interceptLoop buf pollMs slice timeout maxRefresh fuel
          (elapsed + pollMs) (attemptElapsed + pollMs) refreshes

/-- Modelled from the spec: `intercept_json` run against a session whose
response stream drives the Capture Buffer contents `buf`; starts the loop
with zero elapsed time, a fresh attempt window and no refreshes performed. -/
def intercept_json (buf : Nat → Option String) (pollMs slice timeout maxRefresh fuel : Nat) :
    LoopOut :=
  interceptLoop buf pollMs slice timeout maxRefresh fuel 0 0 0

theorem PyVal.isPage_truthy {v : PyVal} (h : v.isPage = true) : v.truthy = true := by
  cases v <;> simp_all [PyVal.isPage, PyVal.truthy]

/-- C1: a response event whose URL does not contain the configured pattern
substring never writes to the Capture Buffer; and matching is by substring
containment in the response URL, not full equality — a URL that properly
contains the pattern does match and does write. -/
theorem C1_no_write_without_substring :
    (∀ (pattern : String) (event : ResponseEvent) (buffer : Option String),
      strContains event.url pattern = false →
        handle_response pattern event buffer = buffer) ∧
    (strContains ("https://example.com/api/data?q=1") ("/api/data") = true ∧
      ("https://example.com/api/data?q=1") ≠ ("/api/data") ∧
      handle_response ("/api/data")
        ⟨("https://example.com/api/data?q=1"), some ("payload")⟩ none =
          some ("payload")) := by
  refine ⟨?_, ?_, ?_, ?_⟩
  · intro pattern event buffer h
    unfold handle_response
    rw [h]
    simp
  · decide
  · decide
  · decide

/-- Witness for C1 at a concrete non-matching response. -/
theorem C1_no_write_without_substring_witness :
    strContains ("https://example.com/other") ("/api/data") = false ∧
    handle_response ("/api/data") ⟨("https://example.com/other"), some ("y")⟩
      (some ("x")) = some ("x") :=
  ⟨by decide,
    C1_no_write_without_substring.1 ("/api/data")
      ⟨("https://example.com/other"), some ("y")⟩ (some ("x")) (by decide)⟩

/-- C7: a `CancelledError` raised while aborting or continuing the route is
caught by the `_block_resources` handler, which returns normally; the
exception is never propagated, for every resource list and resource type. -/
theorem C7_cancellation_caught (resources_to_block : List String)
    (resource_type : String) :
    _block_resources resources_to_block resource_type (some PwExn.cancelled) =
      Except.ok RouteOutcome.cancelledCaught :=
  rfl

/-- C6: in `check_for_loaded_marker`, a marker string without a leading dot
is waited on as the dot-prefixed CSS class selector when `marker_strict` is
false, and is used exactly as supplied when `marker_strict` is true. -/
theorem C6_marker_selector_prefixing {α : Type}
    (func : List PyVal → Kwargs → α) (func_name : String) (s : String)
    (func_args : List PyVal) (func_kwargs : Kwargs) (p : PyVal)
    (hpage : _get_page_arg func_args func_kwargs func_name = Except.ok p) :
    (strStartsWith s (".") = false →
      (check_for_loaded_marker_call false true func func_name (MarkerV.strM s)
        func_args func_kwargs).1 =
        Except.ok (func func_args func_kwargs, some (("." ) ++ s))) ∧
    ((check_for_loaded_marker_call true true func func_name (MarkerV.strM s)
        func_args func_kwargs).1 =
        Except.ok (func func_args func_kwargs, some s)) := by
  constructor
  · intro hs
    unfold check_for_loaded_marker_call
    rw [hpage]
    simp [markerSelector, hs]
  · unfold check_for_loaded_marker_call
    rw [hpage]
    simp [markerSelector]

/-- Witness for C6 at a concrete page argument and marker string. -/
theorem C6_marker_selector_prefixing_witness :
    ((strStartsWith ("marker") (".") = false →
      (check_for_loaded_marker_call false true (fun _ _ => (0 : Nat)) ("f")
        (MarkerV.strM ("marker")) [PyVal.pageV 1] []).1 =
        Except.ok (0, some ((".") ++ ("marker")))) ∧
    ((check_for_loaded_marker_call true true (fun _ _ => (0 : Nat)) ("f")
        (MarkerV.strM ("marker")) [PyVal.pageV 1] []).1 =
        Except.ok (0, some ("marker")))) ∧
    (strStartsWith ("marker") (".") = false) :=
  ⟨C6_marker_selector_prefixing (fun _ _ => (0 : Nat)) ("f") ("marker")
      [PyVal.pageV 1] [] (PyVal.pageV 1) (by rfl), by decide⟩

/-- C3: with `block_resources = True`, every page produced by
`_instantiate_browser_context_page` carries a catch-all route whose handler
is closed over the default resource list; the handler aborts a request if and
only if its resource type is stylesheet, image, font or svg, and a
`"document"` request is never aborted but continued. -/
theorem C3_default_blocking (proxy_info : Option ProxyInfo)
    (headless accept_downloads : Bool) (cookies : List Cookie)
    (browser_type : String) (b : Browser) (ctx : BrowserContext) (pg : PwPage)
    (h : _instantiate_browser_context_page proxy_info headless accept_downloads
      (BlockResources.boolBR true) cookies browser_type =
        Except.ok (b, ctx, pg)) :
    pg.route_pattern = some ("**/*") ∧
    pg.route_resources = some EXCLUDED_RESOURCES_TYPES ∧
    (∀ resource_type,
      _block_resources EXCLUDED_RESOURCES_TYPES resource_type none =
        Except.ok RouteOutcome.abortCalled ↔
          resource_type ∈ EXCLUDED_RESOURCES_TYPES) ∧
    _block_resources EXCLUDED_RESOURCES_TYPES ("document") none =
      Except.ok RouteOutcome.continueCalled := by
  unfold _instantiate_browser_context_page at h
  cases hl : launchBrowser browser_type headless proxy_info <;>
    rw [hl] at h <;> simp at h
  obtain ⟨-, -, hpg⟩ := h
  refine ⟨?_, ?_, ?_, ?_⟩
  · rw [← hpg]
    simp [BlockResources.truthy]
  · rw [← hpg]
    simp [BlockResources.truthy, resourcesToBlock]
  · intro resource_type
    unfold _block_resources
    by_cases hm : resource_type ∈ EXCLUDED_RESOURCES_TYPES <;> simp [hm]
  · rfl

/-- Witness for C3 at a concrete instantiation with default arguments. -/
theorem C3_default_blocking_witness :
    (PwPage.mk (some ("**/*")) (some EXCLUDED_RESOURCES_TYPES)).route_pattern =
      some ("**/*") ∧
    (PwPage.mk (some ("**/*")) (some EXCLUDED_RESOURCES_TYPES)).route_resources =
      some EXCLUDED_RESOURCES_TYPES ∧
    (∀ resource_type,
      _block_resources EXCLUDED_RESOURCES_TYPES resource_type none =
        Except.ok RouteOutcome.abortCalled ↔
          resource_type ∈ EXCLUDED_RESOURCES_TYPES) ∧
    _block_resources EXCLUDED_RESOURCES_TYPES ("document") none =
      Except.ok RouteOutcome.continueCalled :=
  C3_default_blocking none true true [] ("chromium")
    (Browser.mk BrowserKind.chromium true none)
    (BrowserContext.mk true [InitScript.maskWebdriver] [])
    (PwPage.mk (some ("**/*")) (some EXCLUDED_RESOURCES_TYPES)) (by rfl)

/-- C8: every browser context successfully created by
`_instantiate_browser_context_page` — and hence by `open_new_page`, and by
`with_page`, which calls the same function — has the webdriver-masking init
script installed, and that script makes `navigator.webdriver` report `false`
to page scripts whatever it reported before. -/
theorem C8_webdriver_masked (proxy_info : Option ProxyInfo)
    (headless accept_downloads : Bool) (block_resources : BlockResources)
    (cookies : List Cookie) (browser_type : String) (b : Browser)
    (ctx : BrowserContext) (pg : PwPage)
    (h : _instantiate_browser_context_page proxy_info headless accept_downloads
      block_resources cookies browser_type = Except.ok (b, ctx, pg)) :
    InitScript.maskWebdriver ∈ ctx.init_scripts ∧
    (∀ nav : Navigator,
      (InitScript.effect InitScript.maskWebdriver nav).webdriver = false) ∧
    (∀ (proxy2 : Option ProxyInfo) (h2 a2 : Bool) (bl2 : BlockResources)
      (ck2 : List Cookie) (b2 : Browser) (ctx2 : BrowserContext) (pg2 : PwPage),
      open_new_page proxy2 h2 a2 bl2 ck2 = Except.ok (b2, ctx2, pg2) →
        InitScript.maskWebdriver ∈ ctx2.init_scripts) := by
  refine ⟨?_, fun nav => rfl, ?_⟩
  · unfold _instantiate_browser_context_page at h
    cases hl : launchBrowser browser_type headless proxy_info <;>
      rw [hl] at h <;> simp at h
    obtain ⟨-, hctx, -⟩ := h
    rw [← hctx]
    simp
  · intro proxy2 h2 a2 bl2 ck2 b2 ctx2 pg2 h2ok
    unfold open_new_page _instantiate_browser_context_page at h2ok
    cases hl : launchBrowser ("chromium") h2 proxy2 <;>
      rw [hl] at h2ok <;> simp at h2ok
    obtain ⟨-, hctx, -⟩ := h2ok
    rw [← hctx]
    simp

/-- Witness for C8 at a concrete instantiation. -/
theorem C8_webdriver_masked_witness :
    InitScript.maskWebdriver ∈
      (BrowserContext.mk true [InitScript.maskWebdriver] []).init_scripts ∧
    (∀ nav : Navigator,
      (InitScript.effect InitScript.maskWebdriver nav).webdriver = false) ∧
    (∀ (proxy2 : Option ProxyInfo) (h2 a2 : Bool) (bl2 : BlockResources)
      (ck2 : List Cookie) (b2 : Browser) (ctx2 : BrowserContext) (pg2 : PwPage),
      open_new_page proxy2 h2 a2 bl2 ck2 = Except.ok (b2, ctx2, pg2) →
        InitScript.maskWebdriver ∈ ctx2.init_scripts) :=
  C8_webdriver_masked none true true (BlockResources.boolBR true) []
    ("chromium") (Browser.mk BrowserKind.chromium true none)
    (BrowserContext.mk true [InitScript.maskWebdriver] [])
    (PwPage.mk (some ("**/*")) (some EXCLUDED_RESOURCES_TYPES)) (by rfl)

/-- C4: the wrappers built by `wait_after_execution` and
`check_for_loaded_marker` resolve the page through `_get_page_arg`, which
inspects the keyword argument `"page"` first and then the first positional
argument; when neither is a valid `Page` it raises, and in that case each
wrapper propagates the error without executing the wrapped function — the
error is the same for every wrapped function. -/
theorem C4_page_arg_resolution :
    (∀ (func_args : List PyVal) (func_kwargs : Kwargs) (func_name : String)
      (p : PyVal), func_kwargs.lookup ("page") = some p → p.isPage = true →
        _get_page_arg func_args func_kwargs func_name = Except.ok p) ∧
    (∀ (func_args : List PyVal) (func_kwargs : Kwargs) (func_name : String)
      (a : PyVal) (rest : List PyVal), func_args = a :: rest →
        a.isPage = true → (kwGet func_kwargs ("page")).truthy = false →
        _get_page_arg func_args func_kwargs func_name = Except.ok a) ∧
    (∀ (func_args : List PyVal) (func_kwargs : Kwargs) (func_name : String),
      (kwGet func_kwargs ("page")).isPage = false →
      (func_args.headD PyVal.noneV).isPage = false →
        ∃ e, _get_page_arg func_args func_kwargs func_name = Except.error e) ∧
    (∀ {α : Type} (randomized : Bool) (pick : Nat → Nat → Nat)
      (func : List PyVal → Kwargs → α) (func_name : String) (wait_ms : Nat)
      (func_args : List PyVal) (func_kwargs : Kwargs) (e : String),
      _get_page_arg func_args func_kwargs func_name = Except.error e →
        (wait_after_execution_call randomized pick func func_name wait_ms
          func_args func_kwargs).1 = Except.error e) ∧
    (∀ {α : Type} (marker_strict waitOk : Bool)
      (func : List PyVal → Kwargs → α) (func_name : String) (marker : MarkerV)
      (func_args : List PyVal) (func_kwargs : Kwargs) (e : String),
      _get_page_arg func_args func_kwargs func_name = Except.error e →
        (check_for_loaded_marker_call marker_strict waitOk func func_name
          marker func_args func_kwargs).1 = Except.error e) := by
  refine ⟨?_, ?_, ?_, ?_, ?_⟩
  · intro func_args func_kwargs func_name p hl hp
    cases func_kwargs with
    | nil => simp [List.lookup] at hl
    | cons kv rest =>
      unfold _get_page_arg
      simp only [List.isEmpty_cons, Bool.not_false, if_true]
      rw [show kwGet (kv :: rest) ("page") = p by simp [kwGet, hl]]
      rw [PyVal.isPage_truthy hp]
      simp [hp]
  · intro func_args func_kwargs func_name a rest hargs ha hkw
    subst hargs
    unfold _get_page_arg
    by_cases hk : func_kwargs.isEmpty
    · simp [hk, PyVal.truthy, ha]
    · simp [hk, hkw, ha]
  · intro func_args func_kwargs func_name hkw hhd
    rw [List.headD_eq_head?] at hhd
    unfold _get_page_arg
    by_cases hk : func_kwargs.isEmpty
    · by_cases hargs : func_args.isEmpty
      · simp [hk, hargs, PyVal.truthy, PyVal.isPage]
      · simp [hk, hargs, PyVal.truthy, hhd]
    · by_cases ht : (kwGet func_kwargs ("page")).truthy
      · simp [hk, ht, hkw]
      · by_cases hargs : func_args.isEmpty
        · simp [hk, ht, hargs, hkw]
        · simp [hk, ht, hargs, hhd]
  · intro α randomized pick func func_name wait_ms func_args func_kwargs e h
    unfold wait_after_execution_call
    rw [h]
  · intro α marker_strict waitOk func func_name marker func_args func_kwargs e h
    unfold check_for_loaded_marker_call
    rw [h]

/-- Witness for C4: each conjunct instantiated at a concrete call shape. -/
theorem C4_page_arg_resolution_witness :
    (_get_page_arg [] [(("page"), PyVal.pageV 7)] ("f") =
      Except.ok (PyVal.pageV 7)) ∧
    (_get_page_arg [PyVal.pageV 3] [] ("f") = Except.ok (PyVal.pageV 3)) ∧
    (∃ e, _get_page_arg [PyVal.intV 0] [(("page"), PyVal.noneV)] ("f") =
      Except.error e) ∧
    ((wait_after_execution_call true (fun lo _ => lo) (fun _ _ => (0 : Nat))
        ("f") 2000 [] []).1 =
      Except.error (("One of the decorator expects the function `") ++ ("f") ++
        ("` to have a page as first arg or as kwarg."))) ∧
    ((check_for_loaded_marker_call false true (fun _ _ => (0 : Nat)) ("f")
        MarkerV.noneM [] []).1 =
      Except.error (("One of the decorator expects the function `") ++ ("f") ++
        ("` to have a page as first arg or as kwarg."))) :=
  ⟨C4_page_arg_resolution.1 [] [(("page"), PyVal.pageV 7)] ("f")
      (PyVal.pageV 7) (by rfl) (by rfl),
    C4_page_arg_resolution.2.1 [PyVal.pageV 3] [] ("f") (PyVal.pageV 3) []
      (by rfl) (by rfl) (by rfl),
    C4_page_arg_resolution.2.2.1 [PyVal.intV 0] [(("page"), PyVal.noneV)]
      ("f") (by rfl) (by rfl),
    C4_page_arg_resolution.2.2.2.1 true (fun lo _ => lo) (fun _ _ => (0 : Nat))
      ("f") 2000 [] [] _ (by rfl),
    C4_page_arg_resolution.2.2.2.2 false true (fun _ _ => (0 : Nat)) ("f")
      MarkerV.noneM [] [] _ (by rfl)⟩

/-- C9: `check_for_loaded_marker` waits only when the closed-over marker is a
string; with `None` or an already-built `Locator` no selector is waited on and
the cell is unchanged; a successful first invocation on a string rebinds the
cell to the locator, so every subsequent invocation skips both the prefixing
and the wait. -/
theorem C9_marker_wait_only_for_string {α : Type} (marker_strict : Bool)
    (func : List PyVal → Kwargs → α) (func_name : String)
    (func_args : List PyVal) (func_kwargs : Kwargs) (p : PyVal)
    (hpage : _get_page_arg func_args func_kwargs func_name = Except.ok p) :
    (∀ s, check_for_loaded_marker_call marker_strict true func func_name
      (MarkerV.strM s) func_args func_kwargs =
        (Except.ok (func func_args func_kwargs,
          some (markerSelector marker_strict s)),
         MarkerV.locM (markerSelector marker_strict s))) ∧
    (check_for_loaded_marker_call marker_strict true func func_name
      MarkerV.noneM func_args func_kwargs =
        (Except.ok (func func_args func_kwargs, none), MarkerV.noneM)) ∧
    (∀ sel, check_for_loaded_marker_call marker_strict true func func_name
      (MarkerV.locM sel) func_args func_kwargs =
        (Except.ok (func func_args func_kwargs, none), MarkerV.locM sel)) ∧
    (∀ s, (check_for_loaded_marker_call marker_strict true func func_name
      ((check_for_loaded_marker_call marker_strict true func func_name
        (MarkerV.strM s) func_args func_kwargs).2) func_args func_kwargs).1 =
        Except.ok (func func_args func_kwargs, none)) := by
  refine ⟨?_, ?_, ?_, ?_⟩
  · intro s
    unfold check_for_loaded_marker_call
    rw [hpage]
    simp
  · unfold check_for_loaded_marker_call
    rw [hpage]
  · intro sel
    unfold check_for_loaded_marker_call
    rw [hpage]
  · intro s
    unfold check_for_loaded_marker_call
    rw [hpage]
    simp

/-- Witness for C9 at a concrete page argument. -/
theorem C9_marker_wait_only_for_string_witness :
    (∀ s, check_for_loaded_marker_call false true (fun _ _ => (0 : Nat)) ("f")
      (MarkerV.strM s) [PyVal.pageV 1] [] =
        (Except.ok (0, some (markerSelector false s)),
         MarkerV.locM (markerSelector false s))) ∧
    (check_for_loaded_marker_call false true (fun _ _ => (0 : Nat)) ("f")
      MarkerV.noneM [PyVal.pageV 1] [] = (Except.ok (0, none), MarkerV.noneM)) ∧
    (∀ sel, check_for_loaded_marker_call false true (fun _ _ => (0 : Nat)) ("f")
      (MarkerV.locM sel) [PyVal.pageV 1] [] =
        (Except.ok (0, none), MarkerV.locM sel)) ∧
    (∀ s, (check_for_loaded_marker_call false true (fun _ _ => (0 : Nat)) ("f")
      ((check_for_loaded_marker_call false true (fun _ _ => (0 : Nat)) ("f")
        (MarkerV.strM s) [PyVal.pageV 1] []).2) [PyVal.pageV 1] []).1 =
        Except.ok (0, none)) :=
  C9_marker_wait_only_for_string false (fun _ _ => (0 : Nat)) ("f")
    [PyVal.pageV 1] [] (PyVal.pageV 1) (by rfl)

/-- C10: for every invocation that resolves a valid page and completes
without an exception, the wrappers built by `wait_after_execution` and
`check_for_loaded_marker` return exactly the wrapped function's value. -/
theorem C10_output_passthrough {α : Type} (randomized : Bool)
    (pick : Nat → Nat → Nat) (marker_strict waitOk : Bool)
    (func : List PyVal → Kwargs → α) (func_name : String) (wait_ms : Nat)
    (marker : MarkerV) (func_args : List PyVal) (func_kwargs : Kwargs)
    (p : PyVal)
    (hpage : _get_page_arg func_args func_kwargs func_name = Except.ok p) :
    (∀ out waited,
      (wait_after_execution_call randomized pick func func_name wait_ms
        func_args func_kwargs).1 = Except.ok (out, waited) →
          out = func func_args func_kwargs) ∧
    (∀ out sel,
      (check_for_loaded_marker_call marker_strict waitOk func func_name marker
        func_args func_kwargs).1 = Except.ok (out, sel) →
          out = func func_args func_kwargs) := by
  constructor
  · intro out waited h
    unfold wait_after_execution_call at h
    rw [hpage] at h
    simp at h
    exact h.1.symm
  · intro out sel h
    unfold check_for_loaded_marker_call at h
    rw [hpage] at h
    cases marker with
    | noneM => simp at h; exact h.1.symm
    | strM s =>
      cases waitOk with
      | false => simp at h
      | true => simp at h; exact h.1.symm
    | locM l => simp at h; exact h.1.symm

/-- Witness for C10 at a concrete invocation of both wrappers. -/
theorem C10_output_passthrough_witness :
    ((∀ out waited,
      (wait_after_execution_call false (fun lo _ => lo) (fun _ _ => (7 : Nat))
        ("f") 2000 [PyVal.pageV 1] []).1 = Except.ok (out, waited) →
          out = 7) ∧
    (∀ out sel,
      (check_for_loaded_marker_call false true (fun _ _ => (7 : Nat)) ("f")
        MarkerV.noneM [PyVal.pageV 1] []).1 = Except.ok (out, sel) →
          out = 7)) :=
  C10_output_passthrough false (fun lo _ => lo) false true
    (fun _ _ => (7 : Nat)) ("f") 2000 MarkerV.noneM [PyVal.pageV 1] []
    (PyVal.pageV 1) (by rfl)

/-- C5: evaluation of `wait_after_execution` at the failing input.  With
`wait_ms = 2000` and `randomized = True`, the first invocation draws from
`randint(1700, 2300)`; but the wrapper rebinds the `nonlocal wait_ms` cell to
the drawn value, so when `randint` returns its lower bound 1700, the second
invocation draws from `randint(1445, 1955)` and can wait 1445 ms — outside
the claimed [1700, 2300] interval.  The pick `fun lo _ => lo` is a legitimate
`randint` outcome: it lies within the requested bounds at both calls. -/
theorem C5_nonlocal_jitter_drift :
    (jitterLo 2000 = 1700 ∧ jitterHi 2000 = 2300) ∧
    (wait_after_execution_call true (fun lo _ => lo) (fun _ _ => (0 : Nat))
      ("f") 2000 [PyVal.pageV 1] [] =
        (Except.ok (0, 1700), 1700)) ∧
    (wait_after_execution_call true (fun lo _ => lo) (fun _ _ => (0 : Nat))
      ("f")
      ((wait_after_execution_call true (fun lo _ => lo) (fun _ _ => (0 : Nat))
        ("f") 2000 [PyVal.pageV 1] []).2) [PyVal.pageV 1] [] =
        (Except.ok (0, 1445), 1445)) ∧
    (jitterLo 1700 = 1445 ∧ jitterHi 1700 = 1955) ∧
    1445 < 1700 :=
  ⟨⟨rfl, rfl⟩, rfl, rfl, ⟨rfl, rfl⟩, by decide⟩

theorem interceptLoop_empty_no_match (pollMs slice timeout maxRefresh : Nat) :
    ∀ (fuel elapsed attempt refreshes : Nat),
      (interceptLoop (fun _ => none) pollMs slice timeout maxRefresh fuel
        elapsed attempt refreshes).result ≠ InterceptResult.matched := by
  intro fuel
  induction fuel with
  | zero =>
    intro e a r
    simp [interceptLoop]
  | succ n ih =>
    intro e a r
    simp only [interceptLoop]
    split_ifs with h1 h2 h3
    · exact ih e 0 (r + 1)
    · simp
    · simp
    · exact ih (e + pollMs) (a + pollMs) r

theorem interceptLoop_timedOut_elapsed (buf : Nat → Option String)
    (pollMs slice timeout maxRefresh : Nat) :
    ∀ (fuel elapsed attempt refreshes : Nat),
      (interceptLoop buf pollMs slice timeout maxRefresh fuel elapsed attempt
        refreshes).result = InterceptResult.timedOut →
      timeout < (interceptLoop buf pollMs slice timeout maxRefresh fuel
        elapsed attempt refreshes).elapsed := by
  intro fuel
  induction fuel with
  | zero =>
    intro e a r h
    simp [interceptLoop] at h
  | succ n ih =>
    intro e a r
    simp only [interceptLoop]
    cases hb : buf e with
    | some v => simp
    | none =>
      split_ifs with h1 h2 h3
      · exact ih e 0 (r + 1)
      · intro _
        simpa using h2
      · simp
      · exact ih (e + pollMs) (a + pollMs) r

theorem interceptLoop_exhausted_under_budget (buf : Nat → Option String)
    (pollMs slice timeout maxRefresh : Nat) :
    ∀ (fuel elapsed attempt refreshes : Nat),
      (interceptLoop buf pollMs slice timeout maxRefresh fuel elapsed attempt
        refreshes).result = InterceptResult.exhausted →
      (interceptLoop buf pollMs slice timeout maxRefresh fuel elapsed attempt
        refreshes).elapsed ≤ timeout ∧
      (interceptLoop buf pollMs slice timeout maxRefresh fuel elapsed attempt
        refreshes).refreshes = maxRefresh := by
  intro fuel
  induction fuel with
  | zero =>
    intro e a r h
    simp [interceptLoop] at h
  | succ n ih =>
    intro e a r
    simp only [interceptLoop]
    cases hb : buf e with
    | some v => simp
    | none =>
      split_ifs with h1 h2 h3
      · exact ih e 0 (r + 1)
      · simp
      · intro _
        simp only []
        constructor
        · simpa using Nat.le_of_not_lt h2
        · simpa using h3.1
      · exact ih (e + pollMs) (a + pollMs) r

theorem interceptLoop_enough_fuel (buf : Nat → Option String)
    (pollMs slice timeout maxRefresh : Nat) (hp : 1 ≤ pollMs) :
    ∀ (fuel elapsed attempt refreshes : Nat),
      (timeout + 1 - elapsed) + (maxRefresh - refreshes) < fuel →
      (interceptLoop buf pollMs slice timeout maxRefresh fuel elapsed attempt
        refreshes).result ≠ InterceptResult.outOfFuel := by
  intro fuel
  induction fuel with
  | zero =>
    intro e a r h
    omega
  | succ n ih =>
    intro e a r h
    simp only [interceptLoop]
    cases hb : buf e with
    | some v => simp
    | none =>
      split_ifs with h1 h2 h3
      · obtain ⟨-, h1b⟩ := h1
        exact ih e 0 (r + 1) (by omega)
      · simp
      · simp
      · exact ih (e + pollMs) (a + pollMs) r (by omega)

/-- C2: against a session on which no matching response ever arrives (an
always-empty Capture Buffer), `intercept_json` terminates with
ExhaustedRetriesError or TimeoutError, never success; it times out only when
the overall `timeout` has elapsed; exhaustion happens with the total elapsed
wait still within `timeout` and all `maxRefresh` refreshes performed; and
whenever the call ends with the elapsed wait under `timeout` the failure is
ExhaustedRetriesError — distinct from TimeoutError. -/
theorem C2_exhausted_distinct_from_timeout
    (pollMs slice timeout maxRefresh fuel : Nat) (hp : 1 ≤ pollMs)
    (hf : timeout + maxRefresh + 2 ≤ fuel) :
    ((intercept_json (fun _ => none) pollMs slice timeout maxRefresh
        fuel).result = InterceptResult.exhausted ∨
      (intercept_json (fun _ => none) pollMs slice timeout maxRefresh
        fuel).result = InterceptResult.timedOut) ∧
    ((intercept_json (fun _ => none) pollMs slice timeout maxRefresh
        fuel).result = InterceptResult.timedOut →
      timeout < (intercept_json (fun _ => none) pollMs slice timeout
        maxRefresh fuel).elapsed) ∧
    ((intercept_json (fun _ => none) pollMs slice timeout maxRefresh
        fuel).result = InterceptResult.exhausted →
      (intercept_json (fun _ => none) pollMs slice timeout maxRefresh
        fuel).elapsed ≤ timeout ∧
      (intercept_json (fun _ => none) pollMs slice timeout maxRefresh
        fuel).refreshes = maxRefresh) ∧
    ((intercept_json (fun _ => none) pollMs slice timeout maxRefresh
        fuel).elapsed ≤ timeout →
      (intercept_json (fun _ => none) pollMs slice timeout maxRefresh
        fuel).result = InterceptResult.exhausted) := by
  have hnm := interceptLoop_empty_no_match pollMs slice timeout maxRefresh
    fuel 0 0 0
  have hof := interceptLoop_enough_fuel (fun _ => none) pollMs slice timeout
    maxRefresh hp fuel 0 0 0 (by omega)
  have hto := interceptLoop_timedOut_elapsed (fun _ => none) pollMs slice
    timeout maxRefresh fuel 0 0 0
  have hex := interceptLoop_exhausted_under_budget (fun _ => none) pollMs
    slice timeout maxRefresh fuel 0 0 0
  unfold intercept_json
  have h1 : (interceptLoop (fun _ => none) pollMs slice timeout maxRefresh
      fuel 0 0 0).result = InterceptResult.exhausted ∨
      (interceptLoop (fun _ => none) pollMs slice timeout maxRefresh
      fuel 0 0 0).result = InterceptResult.timedOut := by
    cases hres : (interceptLoop (fun _ => none) pollMs slice timeout
        maxRefresh fuel 0 0 0).result with
    | matched => exact absurd hres hnm
    | timedOut => exact Or.inr rfl
    | exhausted => exact Or.inl rfl
    | outOfFuel => exact absurd hres hof
  refine ⟨h1, hto, hex, ?_⟩
  intro hle
  cases h1 with
  | inl h => exact h
  | inr h =>
    have := hto h
    omega

/-- Witness for C2 at a concrete budget: one refresh, poll every 1 ms,
per-attempt slice 2 ms, overall timeout 30 ms and ample fuel; the run
exhausts its refresh budget well before the timeout. -/
theorem C2_exhausted_distinct_from_timeout_witness :
    ((intercept_json (fun _ => none) 1 2 30 1 33).result =
        InterceptResult.exhausted ∨
      (intercept_json (fun _ => none) 1 2 30 1 33).result =
        InterceptResult.timedOut) ∧
    ((intercept_json (fun _ => none) 1 2 30 1 33).result =
        InterceptResult.timedOut →
      30 < (intercept_json (fun _ => none) 1 2 30 1 33).elapsed) ∧
    ((intercept_json (fun _ => none) 1 2 30 1 33).result =
        InterceptResult.exhausted →
      (intercept_json (fun _ => none) 1 2 30 1 33).elapsed ≤ 30 ∧
      (intercept_json (fun _ => none) 1 2 30 1 33).refreshes = 1) ∧
    ((intercept_json (fun _ => none) 1 2 30 1 33).elapsed ≤ 30 →
      (intercept_json (fun _ => none) 1 2 30 1 33).result =
        InterceptResult.exhausted) :=
  C2_exhausted_distinct_from_timeout 1 2 30 1 33 (by decide) (by decide)
